import Mathlib

/-!
Verification of the AirPet Geant4 application plugin classes (`src/geant4`).

The C++ sources are shallowly embedded: `G4double` values become rationals,
`G4int` becomes `Int`, `G4String` becomes `String`, pointers become `Option`,
and the toolkit objects a method reads (steps, tracks, touchables, parsers,
environment variables) become explicit arguments.  Each definition is a direct
transcription of the corresponding function body in the repository.
-/

/-- `G4double` values are modelled as rationals: every arithmetic operation
performed on them in this repository (accumulation of energy deposits,
comparison against the literal `0.`) is exact. -/
abbrev G4double := Rat

/-- `G4ThreeVector`: a triple of coordinates. -/
structure ThreeVector where
  x : G4double
  y : G4double
  z : G4double
  deriving DecidableEq, Repr

/-- Data members of `AirPetHit` (`include/AirPetHit.hh`), with the default
values set by its constructor (`src/AirPetHit.cc`).  The
`physicalVolumeName` member and the `AddEdep` accumulator are referenced by
`AirPetSensitiveDetector.cc` and `EventAction.cc` through the accessors
`GetPhysicalVolumeName` / `SetPhysicalVolumeName` / `AddEdep`, so the hit
record carries that field and `AddEdep` is modelled as addition on `edep`. -/
structure AirPetHit where
  trackID : Int := -1
  parentID : Int := -1
  edep : G4double := 0
  pos : ThreeVector := ⟨0, 0, 0⟩
  time : G4double := 0
  particleName : String := ""
  physicalVolumeName : String := ""
  volumeName : String := ""
  copyNo : Int := -1
  deriving DecidableEq, Repr

/-- The fields of the pre-step touchable that
`AirPetSensitiveDetector::ProcessHits` reads: `GetReplicaNumber()`,
`GetVolume()->GetName()`, `GetVolume()->GetLogicalVolume()->GetName()`,
and `GetVolume()->GetCopyNo()`. -/
structure Touchable where
  replicaNumber : Int
  volumeName : String
  logicalVolumeName : String
  volumeCopyNo : Int
  deriving DecidableEq, Repr

/-- The fields of the step's track that `ProcessHits` reads:
`GetTrackID()`, `GetParentID()`, `GetDefinition()->GetParticleName()`. -/
structure TrackInfo where
  trackID : Int
  parentID : Int
  particleName : String
  deriving DecidableEq, Repr

/-- The parts of a `G4Step` that `AirPetSensitiveDetector::ProcessHits`
reads: total energy deposit, the pre-step touchable, the track, and the
post-step point's position and global time. -/
structure Step where
  totalEnergyDeposit : G4double
  preStepTouchable : Touchable
  track : TrackInfo
  postStepPosition : ThreeVector
  postStepGlobalTime : G4double
  deriving DecidableEq, Repr

/-- The copy number computed by `ProcessHits`: the touchable's replica
number, replaced by `GetVolume()->GetCopyNo()` when the replica number
is zero. -/
def stepCopyNo (s : Step) : Int :=
  let r := s.preStepTouchable.replicaNumber
  if r = 0 then s.preStepTouchable.volumeCopyNo else r

/-- The duplicate test of the loop in `ProcessHits`: an existing hit matches
when its physical-volume name, logical-volume name and copy number equal
those derived from the pre-step touchable. -/
def hitMatches (h : AirPetHit) (pv lv : String) (cn : Int) : Bool :=
  h.physicalVolumeName == pv && h.volumeName == lv && h.copyNo == cn

/-- The search loop of `ProcessHits`: walk the collection in order; at the
first hit matching the key, add the energy deposit to it (`AddEdep`) and
stop.  Returns `none` when no hit matches. -/
def addEdepToFirstMatch (hits : List AirPetHit) (pv lv : String) (cn : Int)
    (e : G4double) : Option (List AirPetHit) :=
  match hits with
  | [] => none
  | h :: t =>
    if hitMatches h pv lv cn then
      some ({ h with edep := h.edep + e } :: t)
    else
      (addEdepToFirstMatch t pv lv cn e).map (h :: ·)

/-- The new hit built by `ProcessHits` when no existing hit matches: the
track data, the volume identifiers from the pre-step touchable, the step's
energy deposit, and the post-step position and global time.  All remaining
fields keep the `AirPetHit` constructor defaults. -/
def newHitFromStep (s : Step) : AirPetHit :=
  { trackID := s.track.trackID
    parentID := s.track.parentID
    particleName := s.track.particleName
    physicalVolumeName := s.preStepTouchable.volumeName
    volumeName := s.preStepTouchable.logicalVolumeName
    copyNo := stepCopyNo s
    edep := s.totalEnergyDeposit
    pos := s.postStepPosition
    time := s.postStepGlobalTime }

/-- `AirPetSensitiveDetector::ProcessHits`
(`src/AirPetSensitiveDetector.cc`): returns false and leaves the event's
hits collection unchanged when the step deposited no energy; otherwise
accumulates the deposit onto the first matching hit, or inserts one new hit
at the end of the collection (`G4THitsCollection::insert` appends), and
returns true. -/
def processHits (hits : List AirPetHit) (s : Step) : Bool × List AirPetHit :=
  if s.totalEnergyDeposit = 0 then
    (false, hits)
  else
    let pv := s.preStepTouchable.volumeName
    let lv := s.preStepTouchable.logicalVolumeName
    let cn := stepCopyNo s
    match addEdepToFirstMatch hits pv lv cn s.totalEnergyDeposit with
    | some updated => (true, updated)
    | none => (true, hits ++ [newHitFromStep s])

/-- `AirPetSensitiveDetector::Initialize` installs a freshly constructed,
empty hits collection for the event. -/
def initializeHitsCollection : List AirPetHit := []

/-- The identifying key of a hit used by the deduplication loop:
physical-volume name, logical-volume name, copy number. -/
def hitKey (h : AirPetHit) : String × String × Int :=
  (h.physicalVolumeName, h.volumeName, h.copyNo)

theorem hitMatches_iff_key (h : AirPetHit) (pv lv : String) (cn : Int) :
    hitMatches h pv lv cn = true ↔ hitKey h = (pv, lv, cn) := by
  simp [hitMatches, hitKey, Prod.ext_iff, and_assoc]

theorem addEdepToFirstMatch_eq_none (pv lv : String) (cn : Int) (e : G4double)
    (hits : List AirPetHit) (hno : ∀ h ∈ hits, hitMatches h pv lv cn = false) :
    addEdepToFirstMatch hits pv lv cn e = none := by
  induction hits with
  | nil => rfl
  | cons h t ih =>
    have hh := hno h (List.mem_cons_self h t)
    have ih2 := ih fun h2 hm => hno h2 (List.mem_cons_of_mem h hm)
    simp [addEdepToFirstMatch, hh, ih2]

theorem addEdepToFirstMatch_eq_some (pv lv : String) (cn : Int) (e : G4double)
    (l₁ l₂ : List AirPetHit) (h : AirPetHit)
    (hskip : ∀ h2 ∈ l₁, hitMatches h2 pv lv cn = false)
    (hmatch : hitMatches h pv lv cn = true) :
    addEdepToFirstMatch (l₁ ++ h :: l₂) pv lv cn e =
      some (l₁ ++ { h with edep := h.edep + e } :: l₂) := by
  induction l₁ with
  | nil => simp [addEdepToFirstMatch, hmatch]
  | cons h0 t ih =>
    have hh := hskip h0 (List.mem_cons_self h0 t)
    have ih2 := ih fun h2 hm => hskip h2 (List.mem_cons_of_mem h0 hm)
    simp [addEdepToFirstMatch, hh, ih2]

theorem addEdepToFirstMatch_map_key (pv lv : String) (cn : Int) (e : G4double)
    (hits updated : List AirPetHit)
    (hsome : addEdepToFirstMatch hits pv lv cn e = some updated) :
    updated.map hitKey = hits.map hitKey := by
  induction hits generalizing updated with
  | nil => simp [addEdepToFirstMatch] at hsome
  | cons h t ih =>
    by_cases hm : hitMatches h pv lv cn = true
    · simp only [addEdepToFirstMatch, hm, if_true, Option.some_inj] at hsome
      subst hsome
      simp [hitKey]
    · rcases hA : addEdepToFirstMatch t pv lv cn e with _ | t2
      · simp [addEdepToFirstMatch, hm, hA] at hsome
      · simp only [addEdepToFirstMatch, hm, Bool.false_eq_true, if_false, hA,
          Option.map_some', Option.some_inj] at hsome
        subst hsome
        simp [ih t2 hA]

/-- C2: `AirPetSensitiveDetector::ProcessHits` deduplicates hits inside a
step.  A step with zero total energy deposit returns false and leaves the
collection unchanged.  A step with non-zero deposit returns true; when the
collection holds a hit matching the pre-step touchable's physical-volume
name, logical-volume name and copy number (and no earlier hit matches),
that hit's energy deposit is increased by the step's deposit and nothing is
inserted; when no hit matches, exactly one new hit carrying the step's
track, volume, energy, post-step position and post-step time is appended. -/
theorem processHits_dedup_spec (hits : List AirPetHit) (s : Step) :
    (s.totalEnergyDeposit = 0 → processHits hits s = (false, hits)) ∧
    (s.totalEnergyDeposit ≠ 0 →
      (processHits hits s).1 = true ∧
      (∀ l₁ h l₂, hits = l₁ ++ h :: l₂ →
        (∀ h2 ∈ l₁, hitMatches h2 s.preStepTouchable.volumeName
            s.preStepTouchable.logicalVolumeName (stepCopyNo s) = false) →
        hitMatches h s.preStepTouchable.volumeName
            s.preStepTouchable.logicalVolumeName (stepCopyNo s) = true →
        (processHits hits s).2 =
          l₁ ++ { h with edep := h.edep + s.totalEnergyDeposit } :: l₂) ∧
      ((∀ h ∈ hits, hitMatches h s.preStepTouchable.volumeName
            s.preStepTouchable.logicalVolumeName (stepCopyNo s) = false) →
        (processHits hits s).2 = hits ++ [newHitFromStep s])) := by
  constructor
  · intro h0
    simp [processHits, h0]
  · intro hne
    refine ⟨?_, ?_, ?_⟩
    · simp [processHits, hne]
      cases addEdepToFirstMatch hits s.preStepTouchable.volumeName
        s.preStepTouchable.logicalVolumeName (stepCopyNo s)
        s.totalEnergyDeposit <;> simp
    · intro l₁ h l₂ hsplit hskip hmatch
      subst hsplit
      simp only [processHits, hne, if_false]
      rw [addEdepToFirstMatch_eq_some _ _ _ _ _ _ _ hskip hmatch]
    · intro hno
      simp only [processHits, hne, if_false]
      rw [addEdepToFirstMatch_eq_none _ _ _ _ _ hno]

/-- C2 witness: a concrete two-hit collection and a step matching the second
hit, instantiating every hypothesis of the deduplication theorem. -/
theorem processHits_dedup_spec_witness :
    (processHits
        [{ physicalVolumeName := "pvA", volumeName := "lvA", copyNo := 1,
           edep := 2 },
         { physicalVolumeName := "pvB", volumeName := "lvB", copyNo := 7,
           edep := 3 }]
        { totalEnergyDeposit := 5,
          preStepTouchable :=
            { replicaNumber := 7, volumeName := "pvB",
              logicalVolumeName := "lvB", volumeCopyNo := 0 },
          track := { trackID := 4, parentID := 2, particleName := "gamma" },
          postStepPosition := ⟨1, 2, 3⟩,
          postStepGlobalTime := 9 }).2 =
      [{ physicalVolumeName := "pvA", volumeName := "lvA", copyNo := 1,
         edep := 2 },
       { physicalVolumeName := "pvB", volumeName := "lvB", copyNo := 7,
         edep := 3 + 5 }] := by
  have h := (processHits_dedup_spec
    [{ physicalVolumeName := "pvA", volumeName := "lvA", copyNo := 1,
       edep := 2 },
     { physicalVolumeName := "pvB", volumeName := "lvB", copyNo := 7,
       edep := 3 }]
    { totalEnergyDeposit := 5,
      preStepTouchable :=
        { replicaNumber := 7, volumeName := "pvB",
          logicalVolumeName := "lvB", volumeCopyNo := 0 },
      track := { trackID := 4, parentID := 2, particleName := "gamma" },
      postStepPosition := ⟨1, 2, 3⟩,
      postStepGlobalTime := 9 }).2 (by decide)
  have h2 := h.2.1
    [{ physicalVolumeName := "pvA", volumeName := "lvA", copyNo := 1,
       edep := 2 }]
    { physicalVolumeName := "pvB", volumeName := "lvB", copyNo := 7,
      edep := 3 }
    [] rfl (by decide) (by decide)
  simpa using h2

theorem addEdepToFirstMatch_none_no_match (pv lv : String) (cn : Int)
    (e : G4double) (hits : List AirPetHit)
    (hnone : addEdepToFirstMatch hits pv lv cn e = none) :
    ∀ h ∈ hits, hitMatches h pv lv cn = false := by
  induction hits with
  | nil => intro h hm; cases hm
  | cons h0 t ih =>
    by_cases hm : hitMatches h0 pv lv cn = true
    · simp [addEdepToFirstMatch, hm] at hnone
    · intro h hmem
      rcases List.mem_cons.mp hmem with rfl | hmem2
      · exact Bool.not_eq_true _ ▸ (by simpa using hm)
      · rcases hA : addEdepToFirstMatch t pv lv cn e with _ | t2
        · exact ih hA h hmem2
        · simp [addEdepToFirstMatch, hm, hA] at hnone

theorem hitKey_newHitFromStep (s : Step) :
    hitKey (newHitFromStep s) =
      (s.preStepTouchable.volumeName, s.preStepTouchable.logicalVolumeName,
        stepCopyNo s) := rfl

/-- C9: the hits collection holds at most one hit per (physical-volume name,
logical-volume name, copy number) key: `Initialize` installs a fresh empty
collection, which trivially satisfies the invariant, and every `ProcessHits`
call preserves it. -/
theorem processHits_preserves_key_nodup :
    (initializeHitsCollection.map hitKey).Nodup ∧
    ∀ (hits : List AirPetHit) (s : Step), (hits.map hitKey).Nodup →
      ((processHits hits s).2.map hitKey).Nodup := by
  refine ⟨List.nodup_nil, ?_⟩
  intro hits s hnd
  by_cases h0 : s.totalEnergyDeposit = 0
  · simpa [processHits, h0] using hnd
  · simp only [processHits, h0, if_false]
    rcases hA : addEdepToFirstMatch hits s.preStepTouchable.volumeName
        s.preStepTouchable.logicalVolumeName (stepCopyNo s)
        s.totalEnergyDeposit with _ | updated
    · simp only
      have hno := addEdepToFirstMatch_none_no_match _ _ _ _ _ hA
      have hkey : hitKey (newHitFromStep s) ∉ hits.map hitKey := by
        rw [hitKey_newHitFromStep]
        intro hmem
        rcases List.mem_map.mp hmem with ⟨h, hhmem, hhk⟩
        have := (hitMatches_iff_key h s.preStepTouchable.volumeName
          s.preStepTouchable.logicalVolumeName (stepCopyNo s)).mpr hhk
        rw [hno h hhmem] at this
        cases this
      simp [List.nodup_append, hnd, hkey]
    · simp only
      rw [addEdepToFirstMatch_map_key _ _ _ _ _ _ hA]
      exact hnd

/-- C9 witness: the invariant theorem applied to a concrete collection that
already holds one hit and a step hitting a different volume. -/
theorem processHits_preserves_key_nodup_witness :
    ((processHits
        [{ physicalVolumeName := "pvA", volumeName := "lvA", copyNo := 1,
           edep := 2 }]
        { totalEnergyDeposit := 5,
          preStepTouchable :=
            { replicaNumber := 3, volumeName := "pvC",
              logicalVolumeName := "lvC", volumeCopyNo := 0 },
          track := { trackID := 4, parentID := 2, particleName := "gamma" },
          postStepPosition := ⟨1, 2, 3⟩,
          postStepGlobalTime := 9 }).2.map hitKey).Nodup :=
  processHits_preserves_key_nodup.2
    [{ physicalVolumeName := "pvA", volumeName := "lvA", copyNo := 1,
       edep := 2 }]
    { totalEnergyDeposit := 5,
      preStepTouchable :=
        { replicaNumber := 3, volumeName := "pvC",
          logicalVolumeName := "lvC", volumeCopyNo := 0 },
      track := { trackID := 4, parentID := 2, particleName := "gamma" },
      postStepPosition := ⟨1, 2, 3⟩,
      postStepGlobalTime := 9 }
    (by decide)

/-- The fields of a `G4Track` that the `AirPetTrajectory` track constructor
reads: particle definition (its name), track and parent IDs, momentum,
vertex position, current position, volume name, global time, and the
creator process (null for primaries). -/
structure Track where
  particleName : String
  trackID : Int
  parentID : Int
  momentum : ThreeVector
  vertexPosition : ThreeVector
  position : ThreeVector
  volumeName : String
  globalTime : G4double
  creatorProcess : Option String
  deriving DecidableEq, Repr

/-- Data members of `AirPetTrajectory` (`include/AirPetTrajectory.hh`).
The position record is a nullable pointer to a vector of trajectory-point
positions (each stored point is a `G4TrajectoryPoint` holding one
`G4ThreeVector`).  The particle-definition pointer is reduced to the
particle name, the only part these claims read. -/
structure AirPetTrajectory where
  positionRecord : Option (List ThreeVector)
  particleName : String
  trackID : Int
  parentID : Int
  timeInit : G4double
  timeFinal : G4double
  parentMomentum : ThreeVector
  momentumInit : ThreeVector
  momentumFinal : ThreeVector
  positionInit : ThreeVector
  positionFinal : ThreeVector
  volInit : String
  volFinal : String
  creatorProcess : String
  deriving DecidableEq, Repr

/-- The `AirPetTrajectory(const G4Track*)` constructor
(`src/AirPetTrajectory.cc`): copies the track's identifiers, momentum,
vertex position, volume and time, resolves the creator process (falling
back to "primary"), and allocates the position record holding a single
point at the track's current position.  The final-state members are left
default-initialised by the C++ constructor; they are modelled with the
zero defaults used by the default constructor. -/
def mkTrajectoryFromTrack (t : Track) : AirPetTrajectory :=
  { particleName := t.particleName
    trackID := t.trackID
    parentID := t.parentID
    momentumInit := t.momentum
    positionInit := t.vertexPosition
    volInit := t.volumeName
    timeInit := t.globalTime
    parentMomentum := ⟨0, 0, 0⟩
    creatorProcess :=
      match t.creatorProcess with
      | some p => p
      | none => "primary"
    positionRecord := some [t.position]
    timeFinal := 0
    momentumFinal := ⟨0, 0, 0⟩
    positionFinal := ⟨0, 0, 0⟩
    volFinal := "" }

/-- `AirPetTrajectory::AppendStep`: pushes one new point holding the step's
post-step position onto the position record.  (The C++ method dereferences
the record unconditionally; every trajectory this program appends to was
built by the track constructor, whose record is non-null.) -/
def appendStep (tr : AirPetTrajectory) (postStepPosition : ThreeVector) :
    AirPetTrajectory :=
  { tr with
    positionRecord := tr.positionRecord.map (fun ps => ps ++ [postStepPosition]) }

/-- `AirPetTrajectory::GetPointEntries`: the record's size, or 0 for a null
record. -/
def getPointEntries (tr : AirPetTrajectory) : Int :=
  match tr.positionRecord with
  | some ps => (ps.length : Int)
  | none => 0

/-- Outcome of `AirPetTrajectory::GetPoint`: either a returned pointer
(possibly null) or an out-of-bounds `std::vector` access, which C++ leaves
undefined. -/
inductive GetPointOutcome where
  | outOfBoundsAccess
  | pointer (p : Option ThreeVector)
  deriving DecidableEq, Repr

/-- `AirPetTrajectory::GetPoint`: returns null when the record is null or
`i` is not below the record's size; otherwise evaluates `(*fPositionRecord)[i]`,
which is a well-defined element access only when `0 <= i`. -/
def getPoint (tr : AirPetTrajectory) (i : Int) : GetPointOutcome :=
  match tr.positionRecord with
  | none => .pointer none
  | some ps =>
    if hlt : i < (ps.length : Int) then
      if hge : 0 ≤ i then
        .pointer (some (ps.get ⟨i.toNat, by omega⟩))
      else
        .outOfBoundsAccess
    else
      .pointer none

theorem foldl_appendStep_positionRecord (steps : List ThreeVector) :
    ∀ (tr : AirPetTrajectory) (ps : List ThreeVector),
      tr.positionRecord = some ps →
      (steps.foldl appendStep tr).positionRecord = some (ps ++ steps) := by
  induction steps with
  | nil => intro tr ps h; simpa using h
  | cons p rest ih =>
    intro tr ps h
    have hstep : (appendStep tr p).positionRecord = some (ps ++ [p]) := by
      simp [appendStep, h]
    have := ih (appendStep tr p) (ps ++ [p]) hstep
    simpa using this

/-- C6: a trajectory built from a track stores that track's current position
as its single initial point; each `AppendStep` appends exactly one point
holding the step's post-step position; after `n` appends `GetPointEntries`
returns `1 + n`, and `GetPoint` returns the recorded positions in insertion
order. -/
theorem trajectory_point_recording (t : Track) (steps : List ThreeVector) :
    (steps.foldl appendStep (mkTrajectoryFromTrack t)).positionRecord =
      some (t.position :: steps) ∧
    getPointEntries (steps.foldl appendStep (mkTrajectoryFromTrack t)) =
      1 + (steps.length : Int) ∧
    ∀ i : Fin (t.position :: steps).length,
      getPoint (steps.foldl appendStep (mkTrajectoryFromTrack t)) (i : Int) =
        .pointer (some ((t.position :: steps).get i)) := by
  have hrec : (steps.foldl appendStep (mkTrajectoryFromTrack t)).positionRecord
      = some (t.position :: steps) := by
    have := foldl_appendStep_positionRecord steps (mkTrajectoryFromTrack t)
      [t.position] rfl
    simpa using this
  refine ⟨hrec, ?_, ?_⟩
  · simp only [getPointEntries, hrec, List.length_cons]
    omega
  · intro i
    have hi : ((i : ℕ) : Int) < (((t.position :: steps).length : ℕ) : Int) := by
      exact_mod_cast i.isLt
    have hge : (0 : Int) ≤ ((i : ℕ) : Int) := Int.natCast_nonneg _
    simp only [getPoint, hrec, dif_pos hi, dif_pos hge]
    congr 2

/-- C6 witness: two appended steps on a concrete trajectory, checked at the
last stored point. -/
theorem trajectory_point_recording_witness :
    getPoint
      ([(⟨4, 4, 4⟩ : ThreeVector), ⟨5, 5, 5⟩].foldl appendStep
        (mkTrajectoryFromTrack
          { particleName := "e-", trackID := 1, parentID := 0,
            momentum := ⟨0, 0, 1⟩, vertexPosition := ⟨0, 0, 0⟩,
            position := ⟨3, 3, 3⟩, volumeName := "World", globalTime := 0,
            creatorProcess := none })) (2 : Int) =
      .pointer (some ⟨5, 5, 5⟩) := by
  have h := (trajectory_point_recording
    { particleName := "e-", trackID := 1, parentID := 0,
      momentum := ⟨0, 0, 1⟩, vertexPosition := ⟨0, 0, 0⟩,
      position := ⟨3, 3, 3⟩, volumeName := "World", globalTime := 0,
      creatorProcess := none }
    [⟨4, 4, 4⟩, ⟨5, 5, 5⟩]).2.2 ⟨2, by decide⟩
  simpa using h

/-- C10 counterexample: `GetPoint` guards only the upper bound (`i <` size):
on a freshly constructed one-point trajectory, `GetPoint(-1)` evaluates
`(*fPositionRecord)[-1]`, an out-of-bounds vector access, rather than
returning the null pointer the claim requires for every negative index. -/
theorem getPoint_negative_counterexample :
    getPoint
        (mkTrajectoryFromTrack
          { particleName := "gamma", trackID := 1, parentID := 0,
            momentum := ⟨0, 0, 1⟩, vertexPosition := ⟨0, 0, 0⟩,
            position := ⟨3, 3, 3⟩, volumeName := "World", globalTime := 0,
            creatorProcess := none }) (-1) ≠
      GetPointOutcome.pointer none ∧
    getPoint
        (mkTrajectoryFromTrack
          { particleName := "gamma", trackID := 1, parentID := 0,
            momentum := ⟨0, 0, 1⟩, vertexPosition := ⟨0, 0, 0⟩,
            position := ⟨3, 3, 3⟩, volumeName := "World", globalTime := 0,
            creatorProcess := none }) (-1) =
      GetPointOutcome.outOfBoundsAccess := by
  constructor
  · intro h
    simp [getPoint, mkTrajectoryFromTrack] at h
  · simp [getPoint, mkTrajectoryFromTrack]

/-- C10 amended: `GetPoint(i)` returns the stored point exactly when the
position record is non-null and `0 <= i < GetPointEntries()`; it returns
nullptr when the record is null or when `i >= GetPointEntries()`; for a
negative `i` with a non-null record it performs an out-of-bounds vector
access instead of returning nullptr. -/
theorem getPoint_bounds (tr : AirPetTrajectory) (i : Int) :
    (tr.positionRecord = none → getPoint tr i = .pointer none) ∧
    (∀ ps, tr.positionRecord = some ps →
      (∀ (h1 : 0 ≤ i) (h2 : i < (ps.length : Int)),
        getPoint tr i = .pointer (some (ps.get ⟨i.toNat, by omega⟩))) ∧
      ((ps.length : Int) ≤ i → getPoint tr i = .pointer none) ∧
      (i < 0 → getPoint tr i = .outOfBoundsAccess)) ∧
    (∀ p, getPoint tr i = .pointer (some p) →
      0 ≤ i ∧ i < getPointEntries tr) := by
  refine ⟨?_, ?_, ?_⟩
  · intro h
    simp [getPoint, h]
  · intro ps hps
    refine ⟨?_, ?_, ?_⟩
    · intro h1 h2
      simp [getPoint, hps, dif_pos h2, dif_pos h1]
    · intro hle
      simp [getPoint, hps, dif_neg (not_lt.mpr hle)]
    · intro hneg
      simp [getPoint, hps, dif_pos (by omega : i < (ps.length : Int)),
        dif_neg (not_le.mpr hneg)]
  · intro p hp
    rcases hps : tr.positionRecord with _ | ps
    · simp [getPoint, hps] at hp
    · by_cases h2 : i < (ps.length : Int)
      · by_cases h1 : 0 ≤ i
        · exact ⟨h1, by simpa [getPointEntries, hps] using h2⟩
        · simp [getPoint, hps, dif_pos h2, dif_neg h1] at hp
      · simp [getPoint, hps, dif_neg h2] at hp

/-- C10 amended witness: the bounds theorem applied to a concrete one-point
trajectory at index 0, at the out-of-range index 1, and at index -1. -/
theorem getPoint_bounds_witness :
    getPoint
        (mkTrajectoryFromTrack
          { particleName := "e+", trackID := 2, parentID := 1,
            momentum := ⟨0, 1, 0⟩, vertexPosition := ⟨0, 0, 0⟩,
            position := ⟨7, 8, 9⟩, volumeName := "World", globalTime := 1,
            creatorProcess := some "annihil" }) 0 =
      .pointer (some ⟨7, 8, 9⟩) ∧
    getPoint
        (mkTrajectoryFromTrack
          { particleName := "e+", trackID := 2, parentID := 1,
            momentum := ⟨0, 1, 0⟩, vertexPosition := ⟨0, 0, 0⟩,
            position := ⟨7, 8, 9⟩, volumeName := "World", globalTime := 1,
            creatorProcess := some "annihil" }) 1 = .pointer none ∧
    getPoint
        (mkTrajectoryFromTrack
          { particleName := "e+", trackID := 2, parentID := 1,
            momentum := ⟨0, 1, 0⟩, vertexPosition := ⟨0, 0, 0⟩,
            position := ⟨7, 8, 9⟩, volumeName := "World", globalTime := 1,
            creatorProcess := some "annihil" }) (-1) = .outOfBoundsAccess := by
  refine ⟨?_, ?_, ?_⟩
  · exact ((getPoint_bounds
      (mkTrajectoryFromTrack
        { particleName := "e+", trackID := 2, parentID := 1,
          momentum := ⟨0, 1, 0⟩, vertexPosition := ⟨0, 0, 0⟩,
          position := ⟨7, 8, 9⟩, volumeName := "World", globalTime := 1,
          creatorProcess := some "annihil" }) 0).2.1 [⟨7, 8, 9⟩] rfl).1
      (by decide) (by decide)
  · exact ((getPoint_bounds
      (mkTrajectoryFromTrack
        { particleName := "e+", trackID := 2, parentID := 1,
          momentum := ⟨0, 1, 0⟩, vertexPosition := ⟨0, 0, 0⟩,
          position := ⟨7, 8, 9⟩, volumeName := "World", globalTime := 1,
          creatorProcess := some "annihil" }) 1).2.1 [⟨7, 8, 9⟩] rfl).2.1
      (by decide)
  · exact ((getPoint_bounds
      (mkTrajectoryFromTrack
        { particleName := "e+", trackID := 2, parentID := 1,
          momentum := ⟨0, 1, 0⟩, vertexPosition := ⟨0, 0, 0⟩,
          position := ⟨7, 8, 9⟩, volumeName := "World", globalTime := 1,
          creatorProcess := some "annihil" }) (-1)).2.1 [⟨7, 8, 9⟩] rfl).2.2
      (by decide)

/-- The three n-tuple column types used by this repository:
`CreateNtupleIColumn` (integer), `CreateNtupleDColumn` (double),
`CreateNtupleSColumn` (string). -/
inductive NtupleColType where
  | colI
  | colD
  | colS
  deriving DecidableEq, Repr

/-- The columns of the "Hits" n-tuple as `RunAction::BeginOfRunAction`
creates them when `fSaveHits` is set (`src/RunAction.cc`): ten columns,
in creation order, so column index `k` is the `k`-th entry.  The
`DetectorName`, `PhysicalVolumeName` and `VolumeName` columns are commented
out in the source ("Removed for disk space"). -/
def hitsNtupleCreatedColumns : List (String × NtupleColType) :=
  [("EventID", .colI),
   ("CopyNo", .colI),
   ("ParticleName", .colS),
   ("TrackID", .colI),
   ("ParentID", .colI),
   ("Edep", .colD),
   ("PosX", .colD),
   ("PosY", .colD),
   ("PosZ", .colD),
   ("Time", .colD)]

/-- The `FillNtuple{I,S,D}Column` calls that
`EventAction::EndOfEventAction` issues for each hit row of the "Hits"
n-tuple (`src/EventAction.cc`), as (column index, column type) pairs in
program order. -/
def hitsNtupleFillCalls : List (Nat × NtupleColType) :=
  [(0, .colI),
   (1, .colS),
   (2, .colS),
   (3, .colS),
   (4, .colI),
   (5, .colS),
   (6, .colI),
   (7, .colI),
   (8, .colD),
   (9, .colD),
   (10, .colD),
   (11, .colD),
   (12, .colD)]

/-- The "Hits" n-tuple ID computed by `RunAction::BeginOfRunAction`:
1 when the "Tracks" n-tuple is also created, 0 otherwise. -/
def runActionHitsNtupleId (saveParticles : Bool) : Nat :=
  if saveParticles then 1 else 0

/-- The "Hits" n-tuple ID computed by `EventAction::EndOfEventAction`:
1 when particles are also saved, 0 otherwise. -/
def eventActionHitsNtupleId (saveParticles : Bool) : Nat :=
  if saveParticles then 1 else 0

/-- C1: the two sides of the "Hits" n-tuple contract disagree.  Both sides
do compute the same n-tuple ID (1 when particles are also saved, 0
otherwise), but `EndOfEventAction` issues thirteen fill calls per hit row
against the ten columns `BeginOfRunAction` created: the fill at column
index 1 supplies a string (the sensitive-detector name) where the created
column 1 is the integer `CopyNo`, and the fills at indices 10 to 12
address columns that were never created. -/
theorem hits_ntuple_layout_mismatch :
    (∀ b, runActionHitsNtupleId b = eventActionHitsNtupleId b) ∧
    hitsNtupleCreatedColumns.length = 10 ∧
    hitsNtupleFillCalls.length = 13 ∧
    hitsNtupleFillCalls.map Prod.fst ≠
      List.range hitsNtupleCreatedColumns.length ∧
    (hitsNtupleFillCalls.map Prod.snd)[1]? ≠
      (hitsNtupleCreatedColumns.map Prod.snd)[1]? ∧
    ∀ k ∈ [10, 11, 12], hitsNtupleCreatedColumns[k]? = none := by
  refine ⟨?_, rfl, rfl, ?_, ?_, ?_⟩
  · intro b; rfl
  · decide
  · decide
  · decide

/-- The severity levels of the toolkit's `G4Exception` facility. -/
inductive G4ExceptionSeverity where
  | fatalException
  | fatalErrorInArgument
  | runMustBeAborted
  | eventMustBeAborted
  | justWarning
  deriving DecidableEq, Repr

/-- One `G4Exception` call with the toolkit's mandated signature: origin of
the exception (location), exception code, severity, and description. -/
structure G4ExceptionCall where
  origin : String
  code : String
  severity : G4ExceptionSeverity
  description : String
  deriving DecidableEq, Repr

/-- The exception raised by `DetectorConstruction::Construct` when no GDML
file has been set. -/
def noGDMLFileException : G4ExceptionCall :=
  { origin := "DetectorConstruction::Construct()"
    code := "NoGDMLFile"
    severity := .fatalException
    description :=
      "No GDML file specified. Use /g4pet/detector/readFile to set one." }

/-- The exception raised by `DetectorConstruction::Construct` when the GDML
parser yields no world volume. -/
def worldVolumeNotFoundException : G4ExceptionCall :=
  { origin := "DetectorConstruction::Construct()"
    code := "WorldVolumeNotFound"
    severity := .fatalException
    description := "Could not find the World Volume in the GDML file." }

/-- Observable outcome of one `DetectorConstruction::Construct` call.
`clearedStores` lists the geometry stores cleared (in clearing order),
`parsedFile` the file handed to `G4GDMLParser::Read`, and `worldVolume`
the returned pointer (`none` = nullptr). -/
structure ConstructResult (α : Type) where
  exceptionsRaised : List G4ExceptionCall
  clearedStores : List String
  parsedFile : Option String
  worldVolume : Option α
  deriving Repr

/-- `DetectorConstruction::Construct` (`src/DetectorConstruction.cc`),
with the toolkit's GDML parser abstracted as a function `parse` from a
filename to the optional world volume it yields.  When the stored filename
is empty it raises a fatal exception and returns nullptr; otherwise it
clears the physical-volume, logical-volume and solid stores, parses the
stored file, raises a fatal exception when the parser yields no world
volume, and returns the parser's world volume. -/
def construct {α : Type} (parse : String → Option α)
    (gdmlFilename : String) : ConstructResult α :=
  if gdmlFilename = "" then
    { exceptionsRaised := [noGDMLFileException]
      clearedStores := []
      parsedFile := none
      worldVolume := none }
  else
    let world := parse gdmlFilename
    { exceptionsRaised :=
        match world with
        | none => [worldVolumeNotFoundException]
        | some _ => []
      clearedStores :=
        ["G4PhysicalVolumeStore", "G4LogicalVolumeStore", "G4SolidStore"]
      parsedFile := some gdmlFilename
      worldVolume := world }

/-- C4: geometry comes only from parsing the stored GDML file with the
toolkit's parser.  With no GDML filename set, `Construct` raises a
FatalException and returns nullptr without touching the stores or the
parser; otherwise it clears the solid, logical-volume and physical-volume
stores, parses the stored file, raises a FatalException exactly when the
parser yields no world volume, and returns the parser's world volume. -/
theorem construct_spec {α : Type} (parse : String → Option α)
    (gdmlFilename : String) :
    (gdmlFilename = "" →
      construct parse gdmlFilename =
        { exceptionsRaised := [noGDMLFileException]
          clearedStores := []
          parsedFile := none
          worldVolume := none }) ∧
    (gdmlFilename ≠ "" →
      (construct parse gdmlFilename).clearedStores =
        ["G4PhysicalVolumeStore", "G4LogicalVolumeStore", "G4SolidStore"] ∧
      (construct parse gdmlFilename).parsedFile = some gdmlFilename ∧
      (construct parse gdmlFilename).worldVolume = parse gdmlFilename ∧
      (parse gdmlFilename = none →
        (construct parse gdmlFilename).exceptionsRaised =
          [worldVolumeNotFoundException]) ∧
      (∀ w, parse gdmlFilename = some w →
        (construct parse gdmlFilename).exceptionsRaised = []) ∧
      noGDMLFileException.severity = .fatalException ∧
      worldVolumeNotFoundException.severity = .fatalException) := by
  constructor
  · intro h
    simp [construct, h]
  · intro h
    refine ⟨?_, ?_, ?_, ?_, ?_, rfl, rfl⟩
    · simp [construct, h]
    · simp [construct, h]
    · simp only [construct, h, if_false]
    · intro hw
      simp [construct, h, hw]
    · intro w hw
      simp [construct, h, hw]

/-- C4 witness: a concrete parser oracle that recognises one filename,
exercised on the empty filename, the recognised file, and an unparsable
file. -/
theorem construct_spec_witness :
    (construct (fun f => if f = "pet.gdml" then some 42 else none)
        "").worldVolume = (none : Option Nat) ∧
    (construct (fun f => if f = "pet.gdml" then some 42 else none)
        "pet.gdml").worldVolume = some 42 ∧
    (construct (fun f => if f = "pet.gdml" then some 42 else none)
        "bad.gdml").exceptionsRaised = [worldVolumeNotFoundException] := by
  refine ⟨?_, ?_, ?_⟩
  · have h := (construct_spec
      (fun f => if f = "pet.gdml" then some (42 : Nat) else none) "").1 rfl
    rw [h]
  · have h := ((construct_spec
      (fun f => if f = "pet.gdml" then some (42 : Nat) else none)
      "pet.gdml").2 (by decide)).2.2.1
    rw [h]
    decide
  · have h := ((construct_spec
      (fun f => if f = "pet.gdml" then some (42 : Nat) else none)
      "bad.gdml").2 (by decide)).2.2.2.1
    exact h (by decide)

/-- The physics-list name chosen in `main` (`main.cc`): the value of the
`G4PHYSICSLIST` environment variable when set, and the default
"FTFP_BERT" otherwise. -/
def physListName (envPhysList : Option String) : String :=
  match envPhysList with
  | some s => s
  | none => "FTFP_BERT"

/-- The physics list installed by `main`, with the toolkit's
`G4PhysListFactory` abstracted as a function `factory` from a reference
physics-list name to the optional list it yields: the factory is asked for
the chosen name, and when that lookup fails (after an error message) the
factory is asked for "FTFP_BERT". -/
def selectPhysicsList {α : Type} (factory : String → Option α)
    (envPhysList : Option String) : Option α :=
  match factory (physListName envPhysList) with
  | some physicsList => some physicsList
  | none => factory "FTFP_BERT"

/-- The optical-physics condition in `main`: `G4OpticalPhysics` is
registered exactly when the `G4OPTICALPHYSICS` environment variable is set
to "on" or "true". -/
def opticalPhysicsRegistered (envOptical : Option String) : Bool :=
  match envOptical with
  | some v => v == "on" || v == "true"
  | none => false

/-- C5: the physics list always comes from the toolkit's factory: the
reference list named by `G4PHYSICSLIST` when that variable is set and the
factory's FTFP_BERT list otherwise, with a fallback to the factory's
FTFP_BERT list when the named list is not found; `G4OpticalPhysics` is
registered exactly when `G4OPTICALPHYSICS` is "on" or "true". -/
theorem physics_list_selection_spec {α : Type} (factory : String → Option α)
    (envPhysList envOptical : Option String) :
    (∀ n physicsList, envPhysList = some n → factory n = some physicsList →
      selectPhysicsList factory envPhysList = some physicsList) ∧
    (∀ n, envPhysList = some n → factory n = none →
      selectPhysicsList factory envPhysList = factory "FTFP_BERT") ∧
    (envPhysList = none →
      selectPhysicsList factory envPhysList = factory "FTFP_BERT") ∧
    (opticalPhysicsRegistered envOptical = true ↔
      envOptical = some "on" ∨ envOptical = some "true") := by
  refine ⟨?_, ?_, ?_, ?_⟩
  · intro n physicsList hn hf
    simp [selectPhysicsList, physListName, hn, hf]
  · intro n hn hf
    simp only [selectPhysicsList, physListName, hn, hf]
  · intro hn
    simp only [selectPhysicsList, physListName, hn]
    cases factory "FTFP_BERT" <;> rfl
  · cases envOptical with
    | none => simp [opticalPhysicsRegistered]
    | some v =>
      simp [opticalPhysicsRegistered]

/-- C5 witness: a concrete factory knowing two reference lists, exercised
with the environment variable set to a known list, an unknown list, and
unset, plus the optical flag on. -/
theorem physics_list_selection_spec_witness :
    selectPhysicsList
        (fun n => if n = "QGSP_BIC" then some "qgsp"
                  else if n = "FTFP_BERT" then some "ftfp" else none)
        (some "QGSP_BIC") = some "qgsp" ∧
    selectPhysicsList
        (fun n => if n = "QGSP_BIC" then some "qgsp"
                  else if n = "FTFP_BERT" then some "ftfp" else none)
        (some "NOSUCH") = some "ftfp" ∧
    selectPhysicsList
        (fun n => if n = "QGSP_BIC" then some "qgsp"
                  else if n = "FTFP_BERT" then some "ftfp" else none)
        none = some "ftfp" ∧
    opticalPhysicsRegistered (some "on") = true := by
  refine ⟨?_, ?_, ?_, ?_⟩
  · exact (physics_list_selection_spec
      (fun n => if n = "QGSP_BIC" then some "qgsp"
                else if n = "FTFP_BERT" then some "ftfp" else none)
      (some "QGSP_BIC") none).1 "QGSP_BIC" "qgsp" rfl (by decide)
  · have h := (physics_list_selection_spec
      (fun n => if n = "QGSP_BIC" then some "qgsp"
                else if n = "FTFP_BERT" then some "ftfp" else none)
      (some "NOSUCH") none).2.1 "NOSUCH" rfl (by decide)
    rw [h]
    decide
  · have h := (physics_list_selection_spec
      (fun n => if n = "QGSP_BIC" then some "qgsp"
                else if n = "FTFP_BERT" then some "ftfp" else none)
      none none).2.2.1 rfl
    rw [h]
    decide
  · exact (physics_list_selection_spec
      (fun n => (none : Option Unit)) none (some "on")).2.2.2.mpr
      (Or.inl rfl)

/-- How one error condition is reported: a `G4Exception` call with the
toolkit's mandated signature, or a message streamed to `G4cerr`. -/
inductive ReportMechanism where
  | viaG4Exception (call : G4ExceptionCall)
  | viaCerrStream (message : String)
  deriving DecidableEq, Repr

/-- One error-reporting site of the repository: the enclosing method and
the mechanism used.  Descriptions built from run-time values at the site
are written with a `<...>` placeholder. -/
structure ErrorReportSite where
  method : String
  mech : ReportMechanism
  deriving DecidableEq, Repr

/-- The `G4cerr` error report of `EventAction::WriteTracksToFile`, issued
when the track output file cannot be opened. -/
def writeTracksFileErrorSite : ErrorReportSite :=
  { method := "EventAction::WriteTracksToFile"
    mech := .viaCerrStream
      "ERROR: Could not open track output file: <filename>" }

/-- Every error-reporting site in the repository's sources, in file order:
the three `G4Exception` calls of `DetectorConstruction`, its `G4cerr`
warning, the two `G4Exception` calls of `EventAction::EndOfEventAction`,
the `G4cerr` error of `EventAction::WriteTracksToFile`, and the `G4cerr`
error of `main` when the requested physics list is not found. -/
def errorReportSites : List ErrorReportSite :=
  [{ method := "DetectorConstruction::SetGDMLFile"
     mech := .viaG4Exception
       { origin := "DetectorConstruction::SetGDMLFile"
         code := "InvalidFileName"
         severity := .fatalException
         description := "GDML file not found: <filename>" } },
   { method := "DetectorConstruction::Construct"
     mech := .viaG4Exception noGDMLFileException },
   { method := "DetectorConstruction::Construct"
     mech := .viaG4Exception worldVolumeNotFoundException },
   { method := "DetectorConstruction::ConstructSDandField"
     mech := .viaCerrStream
       "WARNING: Logical Volume <name> not found in geometry. Cannot attach SD <name>." },
   { method := "EventAction::EndOfEventAction"
     mech := .viaG4Exception
       { origin := "EventAction::EndOfEventAction()"
         code := "Event002"
         severity := .fatalException
         description := "RunAction not found." } },
   { method := "EventAction::EndOfEventAction"
     mech := .viaG4Exception
       { origin := "EventAction::EndOfEventAction()"
         code := "Event001"
         severity := .justWarning
         description := "No HCofThisEvent found." } },
   writeTracksFileErrorSite,
   { method := "main"
     mech := .viaCerrStream
       "ERROR: Physics list <name> not found. Falling back to FTFP_BERT." }]

/-- Whether a reporting mechanism is the toolkit's exception facility. -/
def reportsViaG4Exception : ReportMechanism → Bool
  | .viaG4Exception _ => true
  | .viaCerrStream _ => false

/-- C3 counterexample: the error path of `EventAction::WriteTracksToFile`
(one of the claim's own cited sources) reports through a `G4cerr` stream
message, not through `G4Exception`. -/
theorem error_reporting_counterexample :
    writeTracksFileErrorSite ∈ errorReportSites ∧
    reportsViaG4Exception writeTracksFileErrorSite.mech = false := by
  constructor
  · simp [errorReportSites]
  · rfl

/-- C3 amended: every error-reporting site uses either `G4Exception` with
its mandated four-part signature and a toolkit severity level
(FatalException or JustWarning here), or a `G4cerr` stream message; exactly
three sites use `G4cerr` (the missing-logical-volume warning in
`ConstructSDandField`, the unopenable track file in `WriteTracksToFile`,
and the physics-list fallback in `main`). -/
theorem error_reporting_amended :
    (errorReportSites.all fun r =>
      match r.mech with
      | .viaG4Exception call =>
          call.severity == .fatalException || call.severity == .justWarning
      | .viaCerrStream _ => true) = true ∧
    ((errorReportSites.filter fun r =>
        !(reportsViaG4Exception r.mech)).map ErrorReportSite.method) =
      ["DetectorConstruction::ConstructSDandField",
       "EventAction::WriteTracksToFile", "main"] := by
  constructor
  · rfl
  · rfl

/-- The `G4AnalysisManager` member functions this repository calls. -/
inductive AnalysisManagerCall where
  | setCompressionLevel
  | openFile
  | createNtuple
  | createNtupleColumn
  | finishNtuple
  | fillNtupleColumn
  | addNtupleRow
  | write
  | closeFile
  deriving DecidableEq, Repr

/-- Every function defined in the repository's translation units
(`main.cc` and the `src/*.cc` files). -/
inductive RepoMethod where
  | main
  | actionInitializationCtor
  | actionInitializationDtor
  | actionInitializationBuildForMaster
  | actionInitializationBuild
  | airPetHitCtor
  | airPetHitDtor
  | airPetHitCopyCtor
  | airPetHitAssign
  | airPetHitEqOp
  | airPetHitDraw
  | airPetHitPrint
  | airPetSensitiveDetectorCtor
  | airPetSensitiveDetectorDtor
  | airPetSensitiveDetectorInitialize
  | airPetSensitiveDetectorProcessHits
  | airPetSensitiveDetectorEndOfEvent
  | airPetTrajectoryDefaultCtor
  | airPetTrajectoryTrackCtor
  | airPetTrajectoryCopyCtor
  | airPetTrajectoryDtor
  | airPetTrajectoryShowTrajectory
  | airPetTrajectoryDrawTrajectory
  | airPetTrajectoryAppendStep
  | airPetTrajectoryGetPointEntries
  | airPetTrajectoryGetPoint
  | airPetTrajectoryMergeTrajectory
  | detectorConstructionCtor
  | detectorConstructionDtor
  | detectorConstructionDefineCommands
  | detectorConstructionSetSensitiveDetector
  | detectorConstructionSetGDMLFile
  | detectorConstructionConstruct
  | detectorConstructionConstructSDandField
  | eventActionCtor
  | eventActionDtor
  | eventActionSetNewValue
  | eventActionSetTrackEventRange
  | eventActionBeginOfEventAction
  | eventActionEndOfEventAction
  | eventActionWriteTracksToFile
  | primaryGeneratorActionCtor
  | primaryGeneratorActionDtor
  | primaryGeneratorActionGeneratePrimaries
  | runActionCtor
  | runActionDtor
  | runActionSetNewValue
  | runActionBeginOfRunAction
  | runActionEndOfRunAction
  | steppingActionCtor
  | steppingActionDtor
  | steppingActionUserSteppingAction
  | trackingActionCtor
  | trackingActionDtor
  | trackingActionPreUserTrackingAction
  | trackingActionPostUserTrackingAction
  deriving DecidableEq, Fintype, Repr

/-- The static `G4AnalysisManager` call sites in each repository function,
in order of appearance in the source.  Only four functions touch the
analysis manager: the `RunAction` constructor sets the compression level;
`BeginOfRunAction` opens the file and declares the two n-tuples (22 and 10
columns); `EndOfEventAction` fills rows of both n-tuples;
`EndOfRunAction` writes and closes the file. -/
def analysisCallSites : RepoMethod → List AnalysisManagerCall
  | .runActionCtor => [.setCompressionLevel]
  | .runActionBeginOfRunAction =>
      [.openFile, .createNtuple] ++
        List.replicate 22 .createNtupleColumn ++
        [.finishNtuple, .createNtuple] ++
        List.replicate 10 .createNtupleColumn ++ [.finishNtuple]
  | .eventActionEndOfEventAction =>
      List.replicate 13 .fillNtupleColumn ++ [.addNtupleRow] ++
        List.replicate 22 .fillNtupleColumn ++ [.addNtupleRow]
  | .runActionEndOfRunAction => [.write, .closeFile]
  | _ => []

/-- C7: `RunAction::EndOfRunAction` invokes the analysis manager's `Write`
followed by `CloseFile`, in that order, and no other function of this
repository calls `Write` or `CloseFile`. -/
theorem write_close_only_at_run_end :
    analysisCallSites .runActionEndOfRunAction =
      [AnalysisManagerCall.write, AnalysisManagerCall.closeFile] ∧
    ∀ m : RepoMethod, m ≠ .runActionEndOfRunAction →
      AnalysisManagerCall.write ∉ analysisCallSites m ∧
      AnalysisManagerCall.closeFile ∉ analysisCallSites m := by
  refine ⟨rfl, ?_⟩
  decide

/-- C7 witness: the only other function with analysis-manager calls that
opens the file, `BeginOfRunAction`, neither writes nor closes it. -/
theorem write_close_only_at_run_end_witness :
    AnalysisManagerCall.write ∉
        analysisCallSites RepoMethod.runActionBeginOfRunAction ∧
    AnalysisManagerCall.closeFile ∉
        analysisCallSites RepoMethod.runActionBeginOfRunAction :=
  write_close_only_at_run_end.2 RepoMethod.runActionBeginOfRunAction
    (by decide)

/-- The run-manager types offered by `G4RunManagerFactory`. -/
inductive G4RunManagerType where
  | serialRM
  | mtRM
  | taskingRM
  | tbbRM
  | defaultRM
  deriving DecidableEq, Repr

/-- The run-manager type `main` requests from
`G4RunManagerFactory::CreateRunManager` (`main.cc`):
`G4RunManagerType::Serial`. -/
def mainRunManagerType : G4RunManagerType := .serialRM

/-- The user-action classes of this repository. -/
inductive UserActionKind where
  | primaryGeneratorAction
  | runAction
  | eventAction
  | steppingAction
  | trackingAction
  deriving DecidableEq, Fintype, Repr

/-- The user actions `ActionInitialization::Build` registers through
`SetUserAction` for one (worker) thread, in registration order. -/
def buildUserActions : List UserActionKind :=
  [.primaryGeneratorAction, .eventAction, .runAction, .steppingAction,
   .trackingAction]

/-- The user actions `ActionInitialization::BuildForMaster` registers
through `SetUserAction` (it also constructs an `EventAction`, but only to
pass it to the `RunAction` constructor; only the `RunAction` is
registered). -/
def buildForMasterUserActions : List UserActionKind := [.runAction]

/-- C8 counterexample: `main` requests `G4RunManagerType::Serial` from the
run-manager factory, not the multithreaded type, so the program does not
run under the toolkit's multithreaded run manager. -/
theorem run_manager_type_counterexample :
    mainRunManagerType = G4RunManagerType.serialRM ∧
    G4RunManagerType.serialRM ≠ G4RunManagerType.mtRM ∧
    G4RunManagerType.serialRM ≠ G4RunManagerType.taskingRM := by
  decide

/-- C8 amended: the run manager still comes from the toolkit's factory,
but with the Serial type; `ActionInitialization::Build` registers exactly
one instance of each of the five user-action classes for a thread, and
`BuildForMaster` registers only a `RunAction`. -/
theorem per_thread_actions_amended :
    mainRunManagerType = G4RunManagerType.serialRM ∧
    (∀ a : UserActionKind, a ∈ buildUserActions) ∧
    buildUserActions.Nodup ∧
    buildForMasterUserActions = [UserActionKind.runAction] := by
  decide
